import Mathlib

/-!
Verification of the py-mcsv core (MetaCSV typed-CSV codec).

This file shallow-embeds the parts of the library needed to settle the
frozen claims: the escape-aware parameter splitter and grammar-string
renderer (`mcsv/util.py`), the ULDML-to-C89 date-format lexer and
converter (`mcsv/date_format_converter.py`), the field-description tree
and its grammar parser (`mcsv/field_descriptions.py`,
`mcsv/col_type_parser.py`), the field-processor codecs
(`mcsv/field_processors.py`), and the reader's per-row error-policy
mapping (`mcsv/reader.py`).

Python strings are embedded as `String` (operated on through `List Char`),
Python `int` as `Int`, and Python `float`/`Decimal` as `Rat` (the claim
inputs are all exactly representable, so the rational model agrees with
IEEE-754 on every computation performed here).  A raised Python exception
is an `Except.error` carrying a `PyErr` tag that records the exception
class; `None` is `Option.none`.
-/

namespace MCSV

/-- Exception classes that the embedded code can raise.  `readException`
is the library's own `MetaCSVReadException`; the others are Python
built-ins (`decimal.InvalidOperation` included) that escape
untranslated.  `unmodeled` marks outcomes outside the embedding (system
date parsing, duck-typed calls on value types the library never
produces); no theorem below depends on an `unmodeled` branch. -/
inductive PyErr where
  | valueError
  | readException
  | typeError
  | attributeError
  | invalidOperation
  | unmodeled
  deriving DecidableEq, Repr

deriving instance DecidableEq for Except

/-- Whitespace as stripped by Python `str.strip` (ASCII range). -/
def pyIsSpace (c : Char) : Bool :=
  c = ' ' || c = '\t' || c = '\n' || c = '\r' || c = '\x0b' || c = '\x0c'

/-- `str.strip` on a character list. -/
def stripList (l : List Char) : List Char :=
  ((l.dropWhile pyIsSpace).reverse.dropWhile pyIsSpace).reverse

/-- `str.strip`. -/
def pyStrip (s : String) : String := ⟨stripList s.data⟩

/-- `str.lstrip` . -/
def pyLStrip (s : String) : String := ⟨s.data.dropWhile pyIsSpace⟩

/-- `str.casefold` / `str.lower`, restricted to ASCII (all claim inputs
are ASCII, where the two coincide with `Char.toLower`). -/
def caseFold (s : String) : String := ⟨s.data.map Char.toLower⟩

/-- Worker for `str.replace` with a nonempty pattern: leftmost,
non-overlapping.  The `Nat` is fuel (any bound on the list length);
structural recursion on it keeps the function kernel-reducible. -/
def replaceGo (o : Char) (os new : List Char) : Nat → List Char → List Char
  | _, [] => []
  | 0, l => l
  | fuel + 1, c :: cs =>
    if (o :: os).isPrefixOf (c :: cs) then
      new ++ replaceGo o os new fuel (cs.drop os.length)
    else
      c :: replaceGo o os new fuel cs

/-- `str.replace(old, new)`.  Python's empty-pattern case inserts `new`
around every character. -/
def pyReplace (s old new : String) : String :=
  match old.data with
  | [] => ⟨s.data.foldr (fun c acc => new.data ++ c :: acc) new.data⟩
  | o :: os => ⟨replaceGo o os new.data s.data.length s.data⟩

/-- State machine of `util.split_parameters`: `bs` is the `backslash`
flag, `cur` the token being accumulated.  The trailing `cur` is always
appended; a pending backslash at end of input is discarded, exactly as in
the source. -/
def splitGo (bs : Bool) (cur : List Char) : List Char → List (List Char)
  | [] => [cur]
  | c :: cs =>
    if c = '\\' then splitGo true cur cs
    else if c = '/' then
      if bs then splitGo false (cur ++ [c]) cs
      else cur :: splitGo false [] cs
    else if bs then splitGo false (cur ++ ['\\', c]) cs
    else splitGo false (cur ++ [c]) cs

/-- `util.split_parameters`. -/
def split_parameters (s : String) : List String :=
  (splitGo false [] s.data).map String.mk

/-- `util.render_escaped`: writes a backslash before every `/` or `\`. -/
def escList : List Char → List Char
  | [] => []
  | c :: cs => if c = '/' || c = '\\' then '\\' :: c :: escList cs else c :: escList cs

/-- The tokens actually written by `util.render`: trailing empty tokens
are dropped, but index 0 is always kept (the loop guard is `last > 0`). -/
def keptTokens (l : List (List Char)) : List (List Char) :=
  let k := (l.reverse.dropWhile List.isEmpty).reverse
  if k = [] then [[]] else k

/-- Joins the kept tokens: every token before the last is escaped and
followed by `/`; the last token is written verbatim (unescaped). -/
def renderKept : List (List Char) → List Char
  | [] => []
  | [t] => t
  | t :: ts => escList t ++ '/' :: renderKept ts

/-- `util.render` (collecting the `TextIO` output into a string). -/
def renderTokens (values : List String) : String :=
  match values with
  | [] => ""
  | _ => ⟨renderKept (keptTokens (values.map String.data))⟩

/-- Token characters that never interact with the escape machinery. -/
def noSpecials (t : List Char) : Bool :=
  t.all (fun c => !(c = '/' || c = '\\'))

/-- A token is recovered intact from its escaped form exactly when every
backslash in it is immediately followed by a character other than `/`
and `\` (consecutive backslashes in the escaped stream collapse into a
single pending escape, and a trailing pending escape is dropped). -/
def okEsc : List Char → Bool
  | [] => true
  | '\\' :: [] => false
  | '\\' :: c :: cs => !(c = '/' || c = '\\') && okEsc cs
  | _ :: cs => okEsc cs

/-! ## Date-format lexer and ULDML → C89 conversion
(`mcsv/date_format_converter.py`) -/

/-- Token of the date-pattern lexer. -/
inductive Token where
  | text (s : String)
  | field (s : String)
  deriving DecidableEq, Repr

/-- Result of looking up a field run in the expanded `ULDML_TO_C1989`
dictionary: the key may be absent, present with value `None`, or present
with a directive string. -/
inductive Lookup where
  | absent
  | mappedNone
  | mapped (s : String)
  deriving DecidableEq, Repr

/-- The expanded `ULDML_TO_C1989` dictionary, keyed by (letter, run
length).  The expansion loop in the source runs `k[0]*i` for
`i = 1..limit-1` and also inserts entries whose base value is `None`
(`G`, `k`, `K`); the length-1 keys `W` and `F` carry `None` in the base
table and are skipped by the `elif v is not None` guard, so they are
absent. -/
def uldmlRun (c : Char) (n : Nat) : Lookup :=
  if c = 'G' then (if 1 ≤ n ∧ n ≤ 5 then .mappedNone else .absent)
  else if c = 'y' then
    (if n = 2 then .mapped "%y" else if 1 ≤ n ∧ n ≤ 5 then .mapped "%Y" else .absent)
  else if c = 'Y' then
    (if n = 2 then .mapped "%y" else if 1 ≤ n ∧ n ≤ 5 then .mapped "%Y" else .absent)
  else if c = 'M' then (if 1 ≤ n ∧ n ≤ 2 then .mapped "%m" else .absent)
  else if c = 'w' then (if 1 ≤ n ∧ n ≤ 3 then .mapped "%W" else .absent)
  else if c = 'D' then (if 1 ≤ n ∧ n ≤ 3 then .mapped "%j" else .absent)
  else if c = 'd' then (if 1 ≤ n ∧ n ≤ 2 then .mapped "%d" else .absent)
  else if c = 'E' then (if 1 ≤ n ∧ n ≤ 6 then .mapped "%A" else .absent)
  else if c = 'u' then (if n = 1 then .mapped "%u" else .absent)
  else if c = 'a' then (if 1 ≤ n ∧ n ≤ 4 then .mapped "%p" else .absent)
  else if c = 'H' then (if 1 ≤ n ∧ n ≤ 2 then .mapped "%H" else .absent)
  else if c = 'k' then (if 1 ≤ n ∧ n ≤ 2 then .mappedNone else .absent)
  else if c = 'K' then (if 1 ≤ n ∧ n ≤ 2 then .mappedNone else .absent)
  else if c = 'h' then (if 1 ≤ n ∧ n ≤ 2 then .mapped "%I" else .absent)
  else if c = 'm' then (if 1 ≤ n ∧ n ≤ 2 then .mapped "%M" else .absent)
  else if c = 's' then (if 1 ≤ n ∧ n ≤ 2 then .mapped "%S" else .absent)
  else if c = 'S' then (if 1 ≤ n ∧ n ≤ 19 then .mapped "%f" else .absent)
  else if c = 'z' then (if 1 ≤ n ∧ n ≤ 4 then .mapped "%Z" else .absent)
  else if c = 'Z' then (if 1 ≤ n ∧ n ≤ 5 then .mapped "%Z" else .absent)
  else if c = 'X' then (if 1 ≤ n ∧ n ≤ 5 then .mapped "%Z" else .absent)
  else .absent

/-- Dictionary lookup by token text.  All keys are runs of one repeated
character, which is also the only shape the lexer emits as a field. -/
def uldmlLookup (s : String) : Lookup :=
  match s.data with
  | [] => .absent
  | c :: rest => if rest.all (· = c) then uldmlRun c (rest.length + 1) else .absent

/-- Lexer state (`State` enum in the source).  `inField` keeps the
accumulated run and the previous character; the quoted-literal states
keep the accumulated literal. -/
inductive LexState where
  | start
  | openText
  | inField (cur : String) (prev : Char)
  | inText (cur : String)
  | maybeClose (cur : String)

/-- One `START`-state step: a quote opens a literal, anything else starts
a field run.  Re-examination of a character (`i -= 1` in the source) is
inlined as a call of this function. -/
def startStep (c : Char) : LexState :=
  if c = '\'' then .openText else .inField (String.singleton c) c

/-- `str.isalpha` on a run (ASCII model; every claim input is ASCII). -/
def isAlphaRun (cur : String) : Bool :=
  !cur.data.isEmpty && cur.data.all Char.isAlpha

/-- The lexer loop of `_DateFormatParser.lex`.  The caller appends the
`'\x00'` sentinel; a field or literal still open when the input runs out
is dropped, exactly as in the source (the sentinel forces a flush of any
run of real characters first). -/
def lexGo : LexState → List Char → List Token
  | _, [] => []
  | .start, c :: cs => lexGo (startStep c) cs
  | .openText, c :: cs =>
    if c = '\'' then .text "'" :: lexGo .start cs
    else lexGo (.inText (String.singleton c)) cs
  | .inField cur prev, c :: cs =>
    if c = prev then lexGo (.inField (cur.push c) c) cs
    else
      (if isAlphaRun cur then Token.field cur else Token.text cur) :: lexGo (startStep c) cs
  | .inText cur, c :: cs =>
    if c = '\'' then lexGo (.maybeClose cur) cs
    else lexGo (.inText (cur.push c)) cs
  | .maybeClose cur, c :: cs =>
    if c = '\'' then lexGo (.inText (cur.push c)) cs
    else .text cur :: lexGo (startStep c) cs

/-- `_DateFormatParser.lex` (with the appended sentinel terminator). -/
def lexDateFormat (s : String) : List Token :=
  lexGo .start (s.data ++ ['\x00'])

/-- Output assembly of `_DateFormatParser.parse`: literal tokens have
every `%` doubled; field tokens are replaced by the dictionary entry.
A field whose dictionary entry is `None` makes `ret += None` raise
`TypeError`; an absent field falls back to its raw text (the `.get`
default). -/
def convertTokens : List Token → Except PyErr String
  | [] => .ok ""
  | .text s :: ts => (convertTokens ts).map (fun r => pyReplace s "%" "%%" ++ r)
  | .field s :: ts =>
    match uldmlLookup s with
    | .mapped d => (convertTokens ts).map (fun r => d ++ r)
    | .absent => (convertTokens ts).map (fun r => s ++ r)
    | .mappedNone => .error .typeError

/-- `_DateFormatParser.parse` / the module-level `date_parser`. -/
def convertDateFormat (s : String) : Except PyErr String :=
  convertTokens (lexDateFormat s)

/-! ## Numeric parsing and formatting (`mcsv/util.py` and the numeric
constructors `int`, `float`, `Decimal`) -/

/-- Numeric value of a digit character. -/
def digitVal (c : Char) : Nat := c.toNat - '0'.toNat

/-- Value of a digit run. -/
def digitsToNat (l : List Char) : Nat :=
  l.foldl (fun acc c => acc * 10 + digitVal c) 0

/-- The Python `int(text)` constructor, modelled on its core domain:
an optional sign followed by one or more digits (the claims never use
the additional forms such as underscores or surrounding whitespace,
which the processors strip beforehand anyway). -/
def pyIntParse (s : String) : Option Int :=
  match s.data with
  | '+' :: rest =>
    if !rest.isEmpty && rest.all Char.isDigit then some (digitsToNat rest) else none
  | '-' :: rest =>
    if !rest.isEmpty && rest.all Char.isDigit then some (-(digitsToNat rest : Int)) else none
  | l => if !l.isEmpty && l.all Char.isDigit then some (digitsToNat l) else none

/-- Structural half of the decimal-literal parser: an optional sign,
then `digits`, `digits.digits`, `.digits` or `digits.`; yields the sign
flag and the two digit runs. -/
def ratParts (s : String) : Option (Bool × List Char × List Char) :=
  let signAnd : List Char → Bool × List Char := fun l =>
    match l with
    | '+' :: rest => (false, rest)
    | '-' :: rest => (true, rest)
    | rest => (false, rest)
  let (neg, body) := signAnd s.data
  let ip := body.takeWhile (· ≠ '.')
  match body.dropWhile (· ≠ '.') with
  | [] =>
    if !ip.isEmpty && ip.all Char.isDigit then some (neg, ip, []) else none
  | _ :: fp =>
    if ip.all Char.isDigit && fp.all Char.isDigit && (!ip.isEmpty || !fp.isEmpty) &&
        !fp.contains '.' then
      some (neg, ip, fp)
    else none

/-- Rational value of a parsed decimal literal. -/
def ratValOfParts (p : Bool × List Char × List Char) : ℚ :=
  let m : ℚ := (digitsToNat p.2.1 : ℚ) + (digitsToNat p.2.2 : ℚ) / (10 : ℚ) ^ p.2.2.length
  if p.1 then -m else m

/-- The Python `float(text)` / `Decimal(text)` constructors, modelled on
their shared core domain of plain decimal literals with an optional sign
(no exponents, infinities or NaN, which no claim exercises).  Values are
rationals; every literal in the claims is exactly representable as an
IEEE double, so the model agrees with Python on them. -/
def pyRatParse (s : String) : Option ℚ :=
  (ratParts s).map ratValOfParts

/-- Python `int()` applied to a number: truncation toward zero. -/
def pyTrunc (q : ℚ) : Int := if q.num < 0 then ⌈q⌉ else ⌊q⌋

/-- `str()` of a float value in the rational model: the shortest exact
decimal expansion, with `.0` appended to integral values, matching
Python's `str(float)` on every value the claims use (Python would switch
to exponent notation only far outside that range).  Since `num` and
`den` are coprime, the value `|q| * 10^k` is integral exactly when
`den ∣ 10^k`.  Rationals without a finite decimal expansion are no
float's value; they get an unreachable fallback spelling. -/
def pyFloatStr (q : ℚ) : String :=
  let sgn := if q.num < 0 then "-" else ""
  let n := q.num.natAbs
  let d := q.den
  match (List.range 41).find? (fun k => (10 : Nat) ^ k % d == 0) with
  | some 0 => sgn ++ toString n ++ ".0"
  | some k =>
    let ds :=
      List.replicate (k + 1 - (toString (n * 10 ^ k / d)).length) '0' ++
        (toString (n * 10 ^ k / d)).data
    sgn ++ ⟨ds.take (ds.length - k)⟩ ++ "." ++ ⟨ds.drop (ds.length - k)⟩
  | none => sgn ++ toString n ++ "/" ++ toString d

/-- `str()` of a `Decimal` value in the rational model.  Unlike
`str(float)`, `str(Decimal)` does not append `.0` to integral values;
otherwise the model is the same shortest exact decimal expansion
(`Decimal` preserves the precision of its source text, which coincides
with the canonical expansion on every claim input). -/
def pyDecStr (q : ℚ) : String :=
  let sgn := if q.num < 0 then "-" else ""
  let n := q.num.natAbs
  let d := q.den
  match (List.range 41).find? (fun k => (10 : Nat) ^ k % d == 0) with
  | some 0 => sgn ++ toString n
  | some k =>
    let ds :=
      List.replicate (k + 1 - (toString (n * 10 ^ k / d)).length) '0' ++
        (toString (n * 10 ^ k / d)).data
    sgn ++ ⟨ds.take (ds.length - k)⟩ ++ "." ++ ⟨ds.drop (ds.length - k)⟩
  | none => sgn ++ toString n ++ "/" ++ toString d

/-- Grouping loop of `util.format_integer`: prepends the separator to
each 3-digit chunk.  Fuel-structured; the fuel is any bound on the list
length, so the `0, _` case is unreachable. -/
def groupGo (sep : List Char) : Nat → List Char → List Char
  | _, [] => []
  | 0, _ => []
  | fuel + 1, c :: cs => sep ++ (c :: cs).take 3 ++ groupGo sep fuel ((c :: cs).drop 3)

/-- Body of `util.format_integer` over the already-stringified value.
`neg` is the `value < 0` test, `sep` the thousands separator.  When the
grouping loop runs with separator `None`, `s += None + ...` raises
`TypeError`. -/
def formatIntegerCore (text : List Char) (neg : Bool) (sep : Option String) :
    Except PyErr String :=
  let size := text.length
  let start := if neg then 1 else 0
  let i0 := (size - start) % 3 + start
  let i := if i0 = start then i0 + 3 else i0
  if i < size then
    match sep with
    | none => .error .typeError
    | some sep => .ok ⟨text.take i ++ groupGo sep.data size (text.drop i)⟩
  else .ok ⟨text⟩

/-- `util.format_integer`. -/
def formatInteger (value : Int) (sep : Option String) : Except PyErr String :=
  formatIntegerCore (toString value).data (value < 0) sep

/-- `util.format_float` (value in the rational float model).  The
processor always passes a real string as decimal separator, so only the
thousands separator can be `None`. -/
def formatFloat (value : ℚ) (ts : Option String) (ds : String) : Except PyErr String :=
  let text := pyFloatStr value
  let defaultTs := ts = none || ts = some ""
  let defaultDs := ds = "."
  if defaultDs && defaultTs then .ok text
  else
    match text.data.findIdx? (· = '.') with
    | none => formatIntegerCore text.data (decide (value.num < 0)) ts
    | some idx => do
      let ip ← formatInteger (pyTrunc value) ts
      .ok (ip ++ ds ++ ⟨text.data.drop (idx + 1)⟩)

/-- `util.format_decimal` (same logic as `format_float`, over the
`Decimal` string form). -/
def formatDecimal (value : ℚ) (ts : Option String) (ds : String) : Except PyErr String :=
  let text := pyDecStr value
  let defaultTs := ts = none || ts = some ""
  let defaultDs := ds = "."
  if defaultDs && defaultTs then .ok text
  else
    match text.data.findIdx? (· = '.') with
    | none => formatIntegerCore text.data (decide (value.num < 0)) ts
    | some idx => do
      let ip ← formatInteger (pyTrunc value) ts
      .ok (ip ++ ds ++ ⟨text.data.drop (idx + 1)⟩)

/-! ## Field descriptions (`mcsv/field_description.py`,
`mcsv/field_descriptions.py`) and the grammar parser
(`mcsv/col_type_parser.py`) -/

/-- The `DataType` enum. -/
inductive DataType where
  | BOOLEAN
  | CURRENCY_INTEGER
  | CURRENCY_DECIMAL
  | DATE
  | DATETIME
  | DECIMAL
  | FLOAT
  | INTEGER
  | PERCENTAGE_DECIMAL
  | PERCENTAGE_FLOAT
  | TEXT
  | OBJECT
  deriving DecidableEq, Repr

/-- The closed `FieldDescription` variant tree.  Fields mirror the
constructor parameters of the Python classes; `pre` is the pre/post
flag (the parser only ever passes a real `bool`), the currency and
percentage symbols are the strings the parser passes, and the inner
description of a composite is kept as a full description, as in the
source.  For Date/Datetime, `dateFormat` is the stored (already
converted) C89 format string. -/
inductive FieldDescription where
  | boolean (trueWord falseWord : String)
  | currencyInteger (pre : Bool) (currency : String) (inner : FieldDescription)
  | currencyDecimal (pre : Bool) (currency : String) (inner : FieldDescription)
  | date (dateFormat : String) (localeName : Option String)
  | datetime (dateFormat : String) (localeName : Option String)
  | decimalD (thousandSep : Option String) (decimalSep : String)
  | floatD (thousandSep : Option String) (decimalSep : String)
  | integer (thousandSep : Option String)
  | percentageDecimal (pre : Bool) (sign : String) (inner : FieldDescription)
  | percentageFloat (pre : Bool) (sign : String) (inner : FieldDescription)
  | text
  deriving DecidableEq, Repr

/-- The `get_data_type` methods, one per class.  Note that
`CurrencyIntegerFieldDescription.get_data_type` returns
`DataType.INTEGER` in the source, not `CURRENCY_INTEGER`. -/
def getDataType : FieldDescription → DataType
  | .boolean _ _ => .BOOLEAN
  | .currencyInteger _ _ _ => .INTEGER
  | .currencyDecimal _ _ _ => .CURRENCY_DECIMAL
  | .date _ _ => .DATE
  | .datetime _ _ => .DATETIME
  | .decimalD _ _ => .DECIMAL
  | .floatD _ _ => .FLOAT
  | .integer _ => .INTEGER
  | .percentageDecimal _ _ _ => .PERCENTAGE_DECIMAL
  | .percentageFloat _ _ _ => .PERCENTAGE_FLOAT
  | .text => .TEXT

/-- The `render` methods (collecting the `TextIO` output), which are
also `str(description)`.  Booleans render the keyword `boolean`; the
composite variants render their header tokens, a literal `/`, then the
inner description. -/
def renderDesc : FieldDescription → String
  | .boolean tw fw =>
    if fw ≠ "" then renderTokens ["boolean", tw, fw] else renderTokens ["boolean", tw]
  | .currencyInteger pre cur inner =>
    renderTokens ["sign", if pre then "pre" else "post", cur] ++ "/" ++ renderDesc inner
  | .currencyDecimal pre cur inner =>
    renderTokens ["sign", if pre then "pre" else "post", cur] ++ "/" ++ renderDesc inner
  | .date fmt none => renderTokens ["date", fmt]
  | .date fmt (some loc) => renderTokens ["date", fmt, loc]
  | .datetime fmt none => renderTokens ["datetime", fmt]
  | .datetime fmt (some loc) => renderTokens ["datetime", fmt, loc]
  | .decimalD ts ds => renderTokens ["decimal", ts.getD "", ds]
  | .floatD ts ds => renderTokens ["float", ts.getD "", ds]
  | .integer none => "integer"
  | .integer (some t) => renderTokens ["integer", t]
  | .percentageDecimal pre sign inner =>
    renderTokens ["percentage", if pre then "pre" else "post", sign] ++ "/" ++ renderDesc inner
  | .percentageFloat pre sign inner =>
    renderTokens ["percentage", if pre then "pre" else "post", sign] ++ "/" ++ renderDesc inner
  | .text => "text"

/-- `ColTypeParser.parse_data_bool_row`. -/
def parseDataBoolRow (ps : List String) : Except PyErr FieldDescription :=
  match ps with
  | [tw] => .ok (.boolean tw "")
  | [tw, fw] => .ok (.boolean tw fw)
  | _ => .error .valueError

/-- `ColTypeParser._is_pre`. -/
def isPre (s : String) : Except PyErr Bool :=
  if s = "pre" then .ok true
  else if s = "post" then .ok false
  else .error .valueError

/-- `ColTypeParser.parse_data_integer_row`. -/
def parseDataIntegerRow (ps : List String) : Except PyErr FieldDescription :=
  match ps with
  | [] => .ok (.integer none)
  | [t] => .ok (.integer (some t))
  | _ => .error .valueError

/-- `ColTypeParser.parse_data_decimal_row`: the decimal separator is
stripped unless it is the single-space string; identical separators are
an error. -/
def parseDataDecimalRow (ps : List String) : Except PyErr FieldDescription :=
  match ps with
  | [ts, ds0] =>
    let ds := if ds0 ≠ " " then pyStrip ds0 else ds0
    if ts = ds then .error .valueError else .ok (.decimalD (some ts) ds)
  | _ => .error .valueError

/-- `ColTypeParser.parse_data_float_row`. -/
def parseDataFloatRow (ps : List String) : Except PyErr FieldDescription :=
  match ps with
  | [ts, ds0] =>
    let ds := if ds0 ≠ " " then pyStrip ds0 else ds0
    if ts = ds then .error .valueError else .ok (.floatD (some ts) ds)
  | _ => .error .valueError

/-- `ColTypeParser.parse_data_currency_row`. -/
def parseDataCurrencyRow (ps : List String) : Except PyErr FieldDescription :=
  match ps with
  | prePost :: symbol :: numberType :: numberParams => do
    let pre ← isPre prePost
    if numberType = "integer" then
      let d ← parseDataIntegerRow numberParams
      .ok (.currencyInteger pre symbol d)
    else if numberType = "decimal" then
      let d ← parseDataDecimalRow numberParams
      .ok (.currencyDecimal pre symbol d)
    else .error .valueError
  | _ => .error .valueError

/-- `ColTypeParser.parse_data_percentage_row`. -/
def parseDataPercentageRow (ps : List String) : Except PyErr FieldDescription :=
  match ps with
  | prePost :: symbol :: numberType :: numberParams => do
    let pre ← isPre prePost
    if numberType = "decimal" then
      let d ← parseDataDecimalRow numberParams
      .ok (.percentageDecimal pre symbol d)
    else if numberType = "float" then
      let d ← parseDataFloatRow numberParams
      .ok (.percentageFloat pre symbol d)
    else .error .valueError
  | _ => .error .valueError

/-- `ColTypeParser._parse_data_date_or_datetime_parameters`: one or two
parameters; a locale without a dot gets `UTF8` appended; the ULDML
pattern is converted to C89 form after these checks. -/
def parseDateParams (ps : List String) : Except PyErr (String × Option String) :=
  match ps with
  | [u] => do
    let f ← convertDateFormat u
    .ok (f, none)
  | [u, loc] => do
    let l := if loc.data.contains '.' then loc else loc ++ "UTF8"
    let f ← convertDateFormat u
    .ok (f, some l)
  | _ => .error .valueError

/-- `ColTypeParser.parse_col_type` with the default object factory
(which returns the `Text` singleton).  The keyword table is exactly the
source's dispatch: `bool`, `sign`, `date`, `datetime`, `decimal`,
`float`, `integer`, `percentage`, `text`, `object`.
`split_parameters` never returns an empty list, so the first branch is
unreachable. -/
def parseColType (value : String) : Except PyErr FieldDescription :=
  match split_parameters value with
  | [] => .error .valueError
  | datatype :: ps =>
    if datatype = "bool" then parseDataBoolRow ps
    else if datatype = "sign" then parseDataCurrencyRow ps
    else if datatype = "date" then do
      let (f, l) ← parseDateParams ps
      .ok (.date f l)
    else if datatype = "datetime" then do
      let (f, l) ← parseDateParams ps
      .ok (.datetime f l)
    else if datatype = "decimal" then parseDataDecimalRow ps
    else if datatype = "float" then parseDataFloatRow ps
    else if datatype = "integer" then parseDataIntegerRow ps
    else if datatype = "percentage" then parseDataPercentageRow ps
    else if datatype = "text" then .ok .text
    else if datatype = "object" then .ok .text
    else .error .valueError

/-! ## Field processors (`mcsv/field_processors.py`) -/

/-- In-memory cell values (`bool`, `int`, `float`, `Decimal`, `str`). -/
inductive Value where
  | int (i : Int)
  | rat (q : ℚ)
  | dec (q : ℚ)
  | bool (b : Bool)
  | str (s : String)
  deriving DecidableEq, Repr

mutual

/-- The field-processor variant tree.  Each constructor carries exactly
the state its `__init__` stores.  The composite processors keep their
`number_processor` attribute as an `Inner`: the code passes a built
`FieldProcessor` for currency but the raw inner `FieldDescription` for
percentage, and Python's duck typing only detects the difference when a
method is looked up on it.  `DateAndDatetimeFieldProcessor` stores the
format and locale; its `strptime`/`strftime` conversions are system
facilities outside this embedding and no claim evaluates them. -/
inductive Processor where
  | boolean (trueWord falseWord nullValue : String)
  | currency (pre : Bool) (currency : String) (inner : Inner) (nullValue : String)
  | dateP (dateFormat : String) (localeName : Option String) (nullValue : String)
  | decimalP (thousandSep : Option String) (decimalSep nullValue : String)
  | floatP (thousandSep : Option String) (decimalSep nullValue : String)
  | integerP (thousandSep : Option String) (nullValue : String)
  | percentage (pre : Bool) (sign : String) (inner : Inner) (nullValue : String)
  | textP (nullValue : String)
  deriving DecidableEq, Repr

/-- What a composite processor's `number_processor` attribute holds. -/
inductive Inner where
  | proc (p : Processor)
  | desc (d : FieldDescription)
  deriving DecidableEq, Repr

end

/-- `BooleanFieldProcessor.__init__` casefolds both words once. -/
def mkBooleanProcessor (trueWord falseWord nullValue : String) : Processor :=
  .boolean (caseFold trueWord) (caseFold falseWord) nullValue

/-- The `to_field_processor` methods.  Currency builds the inner
processor first and wraps it; percentage passes its inner description
itself, exactly as in the source. -/
def descToProcessor : FieldDescription → String → Processor
  | .boolean tw fw, nv => mkBooleanProcessor tw fw nv
  | .currencyInteger pre cur inner, nv => .currency pre cur (.proc (descToProcessor inner nv)) nv
  | .currencyDecimal pre cur inner, nv => .currency pre cur (.proc (descToProcessor inner nv)) nv
  | .date fmt loc, nv => .dateP fmt loc nv
  | .datetime fmt loc, nv => .dateP fmt loc nv
  | .decimalD ts ds, nv => .decimalP ts ds nv
  | .floatD ts ds, nv => .floatP ts ds nv
  | .integer ts, nv => .integerP ts nv
  | .percentageDecimal pre sign inner, nv => .percentage pre sign (.desc inner) nv
  | .percentageFloat pre sign inner, nv => .percentage pre sign (.desc inner) nv
  | .text, nv => .textP nv

/-- `field_processors.text_or_none`: strips, compares to the sentinel
(case-sensitively), and returns the *original* text on a mismatch. -/
def textOrNone (text : Option String) (nullValue : String) : Option String :=
  match text with
  | none => none
  | some t => if pyStrip t = nullValue then none else some t

/-- Python's `text[:-size]` slice bound: for `size = 0` the slice is
empty, not the whole string. -/
def sliceDropRight (l : List Char) (size : Nat) : List Char :=
  if size = 0 then [] else l.take (l.length - size)

/-- Division of two parsed numbers, as evaluated by
`PercentageFieldProcessor.to_object`.  `None` operands and unsupported
type pairings raise `TypeError`; division by zero raises
`ZeroDivisionError`, which no claim input can produce, so it is folded
into the unmodelled marker. -/
def divValue : Option Value → Option Value → Except PyErr (Option Value)
  | some (.rat a), some (.rat b) => .ok (some (.rat (a / b)))
  | some (.dec a), some (.dec b) => .ok (some (.dec (a / b)))
  | some (.int a), some (.int b) => .ok (some (.rat ((a : ℚ) / (b : ℚ))))
  | some (.int a), some (.rat b) => .ok (some (.rat ((a : ℚ) / b)))
  | some (.rat a), some (.int b) => .ok (some (.rat (a / (b : ℚ))))
  | some (.dec a), some (.int b) => .ok (some (.dec (a / (b : ℚ))))
  | some (.int a), some (.dec b) => .ok (some (.dec ((a : ℚ) / b)))
  | _, _ => .error .typeError

mutual

/-- The `to_object` methods.  `Option String` is the nullable text
argument; a raised exception is an `Except.error`.  The numeric
processors strip, casefold, compare to the sentinel, strip separators
and parse; `int()`/`float()` failures are `ValueError`s, caught and
re-raised as `MetaCSVReadException` (`readException`), while
`Decimal()` failures are `decimal.InvalidOperation`, which the
`except ValueError` clause does not catch. -/
def toObjectP : Processor → Option String → Except PyErr (Option Value)
  | .boolean tw fw nv, text =>
    match textOrNone text nv with
    | none => .ok none
    | some t =>
      if caseFold t = tw then .ok (some (.bool true))
      else if caseFold t = fw then .ok (some (.bool false))
      else .error .readException
  | .currency pre cur inner nv, text =>
    match textOrNone text nv with
    | none => .ok none
    | some t =>
      if pre then
        if cur.data.isPrefixOf t.data then
          innerToObject inner (some (pyLStrip ⟨t.data.drop cur.data.length⟩))
        else .error .readException
      else
        if cur.data.isSuffixOf t.data then
          innerToObject inner (some (pyLStrip ⟨sliceDropRight t.data cur.data.length⟩))
        else .error .readException
  | .dateP _ _ nv, text =>
    match textOrNone text nv with
    | none => .ok none
    | some _ => .error .unmodeled
  | .decimalP ts ds nv, text =>
    match text with
    | none => .ok none
    | some t0 =>
      let t1 := caseFold (pyStrip t0)
      if t1 = nv then .ok none
      else
        let t2 := match ts with
          | some s => if s = "" then t1 else pyReplace t1 s ""
          | none => t1
        let t3 := if ds ≠ "." then pyReplace t2 ds "." else t2
        match pyRatParse t3 with
        | some q => .ok (some (.dec q))
        | none => .error .invalidOperation
  | .floatP ts ds nv, text =>
    match text with
    | none => .ok none
    | some t0 =>
      let t1 := caseFold (pyStrip t0)
      if t1 = nv then .ok none
      else
        let t2 := match ts with
          | some s => if s = "" then t1 else pyReplace t1 s ""
          | none => t1
        let t3 := if ds ≠ "." then pyReplace t2 ds "." else t2
        match pyRatParse t3 with
        | some q => .ok (some (.rat q))
        | none => .error .readException
  | .integerP ts nv, text =>
    match text with
    | none => .ok none
    | some t0 =>
      let t1 := caseFold (pyStrip t0)
      if t1 = nv then .ok none
      else
        let t2 := match ts with
          | some s => if s = "" then t1 else pyReplace t1 s ""
          | none => t1
        match pyIntParse t2 with
        | some n => .ok (some (.int n))
        | none => .error .readException
  | .percentage pre sign inner nv, text =>
    match textOrNone text nv with
    | none => .ok none
    | some t =>
      if pre then
        if sign.data.isPrefixOf t.data then do
          let a ← innerToObject inner (some (pyLStrip ⟨t.data.drop sign.data.length⟩))
          let b ← innerToObject inner (some "100.0")
          divValue a b
        else .error .readException
      else
        if sign.data.isSuffixOf t.data then do
          let a ← innerToObject inner (some (pyLStrip ⟨sliceDropRight t.data sign.data.length⟩))
          let b ← innerToObject inner (some "100.0")
          divValue a b
        else .error .readException
  | .textP nv, text => .ok ((textOrNone text nv).map .str)

/-- `self._number_processor.to_object(...)`: on a processor this is the
method call; on a description the attribute lookup itself raises
`AttributeError` (`FieldDescription` has no `to_object`). -/
def innerToObject : Inner → Option String → Except PyErr (Option Value)
  | .proc p, text => toObjectP p text
  | .desc _, _ => .error .attributeError

end

mutual

/-- The `to_string` methods.  `BooleanFieldProcessor.to_string` returns
the Python `None` object (not the sentinel string) for a null value;
`DateAndDatetimeFieldProcessor.to_string` has no null check at all, so
`value.strftime` on `None` raises `AttributeError`.  A value of a type
the method never receives from the library is marked unmodelled. -/
def toStringP : Processor → Option Value → Except PyErr (Option String)
  | .boolean _ _ _, none => .ok none
  | .boolean _ _ _, some (.bool b) => .ok (some (if b then "true" else "false"))
  | .boolean _ _ _, some _ => .error .unmodeled
  | .currency _ _ _ nv, none => .ok (some nv)
  | .currency pre cur inner _, some v => do
    let s ← innerToStringF inner (some v)
    .ok (some (if pre then cur ++ " " ++ s else s ++ " " ++ cur))
  | .dateP _ _ _, none => .error .attributeError
  | .dateP _ _ _, some _ => .error .unmodeled
  | .decimalP _ _ nv, none => .ok (some nv)
  | .decimalP ts ds _, some (.dec q) => (formatDecimal q ts ds).map some
  | .decimalP _ _ _, some _ => .error .unmodeled
  | .floatP _ _ nv, none => .ok (some nv)
  | .floatP ts ds _, some (.rat q) => (formatFloat q ts ds).map some
  | .floatP _ _ _, some _ => .error .unmodeled
  | .integerP _ nv, none => .ok (some nv)
  | .integerP ts _, some (.int n) => (formatInteger n ts).map some
  | .integerP _ _, some _ => .error .unmodeled
  | .percentage _ _ _ nv, none => .ok (some nv)
  | .percentage pre sign inner _, some v => do
    let s ← innerToStringF inner (some v)
    .ok (some (if pre then sign ++ " " ++ s else s ++ " " ++ sign))
  | .textP nv, none => .ok (some nv)
  | .textP _, some (.str s) => .ok (some s)
  | .textP _, some _ => .error .unmodeled

/-- `self._number_processor.to_string(value)` inside an f-string: a
description has no such attribute (`AttributeError`); a processor's
`None` result would be interpolated as the text `None`. -/
def innerToStringF : Inner → Option Value → Except PyErr String
  | .proc p, v =>
    match toStringP p v with
    | .ok (some s) => .ok s
    | .ok none => .ok "None"
    | .error e => .error e
  | .desc _, _ => .error .attributeError

end

/-! ## The reader's row mapping (`mcsv/reader.py`,
`MetaCSVReaderFactory._get_map_row`) -/

/-- The `on_error` policies. -/
inductive ErrorPolicy where
  | wrap
  | null
  | text
  | exception
  deriving DecidableEq, Repr

/-- A mapped row slot: either a converted value or, under the `wrap`
policy, a `ReadError{value, description}` marker. -/
inductive Cell where
  | obj (v : Option Value)
  | readError (value description : String)
  deriving DecidableEq, Repr

/-- `wrap` policy for one cell: only `MetaCSVReadException` is caught
and turned into `ReadError(text, str(description))`; any other
exception propagates. -/
def wrapCell (d : FieldDescription) (p : Processor) (t : String) : Except PyErr Cell :=
  match toObjectP p (some t) with
  | .ok v => .ok (.obj v)
  | .error .readException => .ok (.readError t (renderDesc d))
  | .error e => .error e

/-- `null` policy for one cell. -/
def nullCell (p : Processor) (t : String) : Except PyErr Cell :=
  match toObjectP p (some t) with
  | .ok v => .ok (.obj v)
  | .error .readException => .ok (.obj none)
  | .error e => .error e

/-- `text` policy for one cell: the raw text is substituted. -/
def textCell (p : Processor) (t : String) : Except PyErr Cell :=
  match toObjectP p (some t) with
  | .ok v => .ok (.obj v)
  | .error .readException => .ok (.obj (some (.str t)))
  | .error e => .error e

/-- `exception` policy for one cell: nothing is caught. -/
def exceptionCell (p : Processor) (t : String) : Except PyErr Cell :=
  (toObjectP p (some t)).map .obj

/-- `MetaCSVReaderFactory._get_map_row` applied to one row: processors
are built from the descriptions and the configured null sentinel; each
cell is converted under the active policy; the first uncaught exception
aborts the row. -/
def mapRow (policy : ErrorPolicy) (descriptions : List FieldDescription)
    (nullValue : String) (row : List String) : Except PyErr (List Cell) :=
  let procs := descriptions.map (descToProcessor · nullValue)
  match policy with
  | .wrap => (descriptions.zip (procs.zip row)).mapM (fun x => wrapCell x.1 x.2.1 x.2.2)
  | .null => (procs.zip row).mapM (fun x => nullCell x.1 x.2)
  | .text => (procs.zip row).mapM (fun x => textCell x.1 x.2)
  | .exception => (procs.zip row).mapM (fun x => exceptionCell x.1 x.2)

/-! ## Sanity checks: the embedded functions evaluated on the
concrete inputs of the source doctests and test suite -/

example : split_parameters "" = [""] := by decide
example : split_parameters "a//b" = ["a", "", "b"] := by decide
example : split_parameters "date\\/yyyy" = ["date/yyyy"] := by decide
example : split_parameters "date\\\\/yyyy" = ["date/yyyy"] := by decide
example : split_parameters "\\\\/" = ["/"] := by decide
example : split_parameters "a\\" = ["a"] := by decide
example : split_parameters "DD\\mm\\yyyy/locale" = ["DD\\mm\\yyyy", "locale"] := by decide
example : renderTokens ["foo", "bar", "baz"] = "foo/bar/baz" := by decide
example : renderTokens ["foo", "", ""] = "foo" := by decide
example : renderTokens ["", "", ""] = "" := by decide
example : renderTokens [] = "" := by decide
example : renderTokens ["a/b", "c"] = "a\\/b/c" := by decide
example : renderTokens ["a/b"] = "a/b" := by decide
example : pyReplace "1 234,5" " " "" = "1234,5" := by decide
example : pyReplace "ab" "" "." = ".a.b." := by decide
example : pyReplace "aaa" "aa" "b" = "ba" := by decide

example : lexDateFormat "yyyy-MM-dd" =
    [.field "yyyy", .text "-", .field "MM", .text "-", .field "dd"] := by decide
example : convertDateFormat "yyyy-MM-dd" = .ok "%Y-%m-%d" := by decide
example : convertDateFormat "yyyy-MM-dd'T'HH:mm:ss" = .ok "%Y-%m-%dT%H:%M:%S" := by decide
example : convertDateFormat "W" = .ok "W" := by decide
example : convertDateFormat "F" = .ok "F" := by decide
example : convertDateFormat "G" = .error .typeError := by decide
example : convertDateFormat "k" = .error .typeError := by decide
example : convertDateFormat "K" = .error .typeError := by decide
example : convertDateFormat "'a%b'" = .ok "a%%b" := by decide
example : convertDateFormat "''" = .ok "'" := by decide
example : convertDateFormat "%Y" = .ok "%%%Y" := by decide

example : pyIntParse "1234" = some 1234 := by decide
example : pyIntParse "-12" = some (-12) := by decide
example : pyIntParse "null" = none := by decide
example : pyIntParse "100.0" = none := by decide

example : pyRatParse "12.5" = some (25 / 2) := by
  have h : ratParts "12.5" = some (false, ['1', '2'], ['5']) := by decide
  have h1 : digitsToNat ['1', '2'] = 12 := by decide
  have h2 : digitsToNat ['5'] = 5 := by decide
  simp [pyRatParse, h, ratValOfParts, h1, h2]
  norm_num

example : pyRatParse "100.0" = some 100 := by
  have h : ratParts "100.0" = some (false, ['1', '0', '0'], ['0']) := by decide
  have h1 : digitsToNat ['1', '0', '0'] = 100 := by decide
  have h2 : digitsToNat ['0'] = 0 := by decide
  simp [pyRatParse, h, ratValOfParts, h1, h2]

example : pyRatParse "foo" = none := by
  have h : ratParts "foo" = none := by decide
  simp [pyRatParse, h]

example : pyFloatStr (1 / 8) = "0.125" := by
  have h1 : ((1 : ℚ) / 8).num = 1 := by norm_num
  have h2 : ((1 : ℚ) / 8).den = 8 := by norm_num
  simp only [pyFloatStr, h1, h2]
  decide

example : pyFloatStr (25 / 2) = "12.5" := by
  have h1 : ((25 : ℚ) / 2).num = 25 := by norm_num
  have h2 : ((25 : ℚ) / 2).den = 2 := by norm_num
  simp only [pyFloatStr, h1, h2]
  decide

example : pyFloatStr 100 = "100.0" := by
  have h1 : (100 : ℚ).num = 100 := by norm_num
  have h2 : (100 : ℚ).den = 1 := by norm_num
  simp only [pyFloatStr, h1, h2]
  decide

example : formatInteger (-12345678) (some "~") = .ok "-12~345~678" := by decide
example : formatInteger (-11) (some "~") = .ok "-11" := by decide
example : formatInteger 1234567 (some "~") = .ok "1~234~567" := by decide
example : formatInteger 123 none = .ok "123" := by decide
example : formatInteger 1234 none = .error .typeError := by decide

example : formatFloat (2469 / 2) (some " ") "," = .ok "1 234,5" := by
  have h1 : ((2469 : ℚ) / 2).num = 2469 := by norm_num
  have h2 : ((2469 : ℚ) / 2).den = 2 := by norm_num
  have h3 : pyTrunc (2469 / 2) = 1234 := by
    simp only [pyTrunc, h1]
    norm_num
  simp only [formatFloat, pyFloatStr, h1, h2, h3]
  decide

example : formatDecimal (-12345678 : ℚ) (some "~") ";" = .ok "-12~345~678" := by
  have h1 : (-12345678 : ℚ).num = -12345678 := by norm_num
  have h2 : (-12345678 : ℚ).den = 1 := by norm_num
  simp only [formatDecimal, pyDecStr, h1, h2]
  decide

example : formatDecimal (2469 / 2) (some " ") "," = .ok "1 234,5" := by
  have h1 : ((2469 : ℚ) / 2).num = 2469 := by norm_num
  have h2 : ((2469 : ℚ) / 2).den = 2 := by norm_num
  have h3 : pyTrunc (2469 / 2) = 1234 := by
    simp only [pyTrunc, h1]
    norm_num
  simp only [formatDecimal, pyDecStr, h1, h2, h3]
  decide

example : parseColType "bool/T" = .ok (.boolean "T" "") := by decide
example : parseColType "boolean/T" = .error .valueError := by decide
example : parseColType "integer" = .ok (.integer none) := by decide
example : parseColType "integer/," = .ok (.integer (some ",")) := by decide
example : parseColType "integer//foo" = .error .valueError := by decide
example : parseColType "sign/pre/$/decimal//." =
    .ok (.currencyDecimal true "$" (.decimalD (some "") ".")) := by decide
example : parseColType "sign/foo/$/decimal//." = .error .valueError := by decide
example : parseColType "sign/pre/€/float//." = .error .valueError := by decide
example : parseColType "percentage/post/%/float/ /." =
    .ok (.percentageFloat false "%" (.floatD (some " ") ".")) := by decide
example : parseColType "percentage/post/%/integer" = .error .valueError := by decide
example : parseColType "date/yyyy-MM-dd" = .ok (.date "%Y-%m-%d" none) := by decide
example : parseColType "date/yyyy-MM-dd/en_US" = .ok (.date "%Y-%m-%d" (some "en_USUTF8")) := by
  decide
example : parseColType "date/yyyy-MM-dd/en_US.utf8" =
    .ok (.date "%Y-%m-%d" (some "en_US.utf8")) := by decide
example : parseColType "float/./." = .error .valueError := by decide
example : parseColType "float// ." = .ok (.floatD (some "") ".") := by decide
example : parseColType "text" = .ok .text := by decide
example : parseColType "foo" = .error .valueError := by decide
example : renderDesc (.boolean "T" "") = "boolean/T" := by decide
example : renderDesc (.boolean "true" "false") = "boolean/true/false" := by decide
example : renderDesc (.currencyDecimal false "€" (.decimalD none ".")) =
    "sign/post/€/decimal//." := by decide
example : renderDesc (.integer none) = "integer" := by decide
example : renderDesc (.date "%Y" none) = "date/%Y" := by decide

example : toObjectP (descToProcessor (.integer none) "NULL") (some "foo") =
    .error .readException := by decide
example : toObjectP (descToProcessor (.integer none) "NULL") (some "NULL") =
    .error .readException := by decide
example : toObjectP (descToProcessor (.integer none) "null") (some "NULL") = .ok none := by decide
example : toObjectP (descToProcessor (.integer (some " ")) "null") (some "1 234") =
    .ok (some (.int 1234)) := by decide
example : toStringP (mkBooleanProcessor "true" "false" "NULL") none = .ok none := by decide
example : toObjectP (mkBooleanProcessor "T" "F" "NULL") (some "t") =
    .ok (some (.bool true)) := by decide
example : toObjectP (.textP "NULL") (some " NULL ") = .ok none := by decide
example : toObjectP (.textP "NULL") (some " x ") = .ok (some (.str " x ")) := by decide
example : toStringP (.textP "NULL") none = .ok (some "NULL") := by decide
example : toObjectP (.dateP "%Y" none "NULL") (some "NULL") = .ok none := by decide
example : toStringP (.dateP "%Y" none "NULL") none = .error .attributeError := by decide

example : mapRow .wrap [.integer none] "NULL" ["foo"] =
    .ok [.readError "foo" "integer"] := by decide
example : mapRow .null [.integer none] "NULL" ["foo"] = .ok [.obj none] := by decide
example : mapRow .text [.integer none] "NULL" ["foo"] = .ok [.obj (some (.str "foo"))] := by decide
example : mapRow .exception [.integer none] "NULL" ["foo"] = .error .readException := by decide
example : mapRow .wrap [.integer none] "NULL" ["17"] = .ok [.obj (some (.int 17))] := by decide

/-! ## Claim theorems -/

/-- C1.  The claim states `parse(render(d)) == d` for every
constructible description, Boolean, Date and Datetime included.  On the
code this fails: the boolean renderer writes the keyword `boolean`
while the parser dispatches only on `bool`, so `parse(render(d))`
raises `ValueError` for every boolean description; and a date
description stores the converted C89 format, which rendering emits and
re-parsing converts *again* (`%Y` becomes `%%%Y`), so the date
round-trip is not structural identity either.  This theorem evaluates
the code at those failing inputs. -/
theorem parse_render_roundtrip_fails :
    renderDesc (.boolean "T" "") = "boolean/T" ∧
    parseColType (renderDesc (.boolean "T" "")) = .error .valueError ∧
    renderDesc (.date "%Y" none) = "date/%Y" ∧
    parseColType (renderDesc (.date "%Y" none)) = .ok (.date "%%%Y" none) ∧
    FieldDescription.date "%%%Y" none ≠ .date "%Y" none := by decide

/-- C2.  The claim states `p.to_object(s) == null` and
`p.to_string(null) == s` for every processor variant and sentinel,
sentinels with upper-case letters included.  On the code this fails:
`BooleanFieldProcessor.to_string(None)` returns the `None` object, not
the sentinel; the numeric processors casefold the input before
comparing it to the sentinel, so with sentinel `"NULL"` the cell
`"NULL"` becomes `"null"`, misses the comparison, and `to_object`
raises; and the date processor's `to_string(None)` calls
`None.strftime`, an `AttributeError`.  This theorem evaluates the code
at those failing inputs (and checks the variants on which the claim
does hold at the same sentinel). -/
theorem null_roundtrip_fails :
    toStringP (mkBooleanProcessor "true" "false" "NULL") none = .ok none ∧
    (Except.ok (none : Option String) : Except PyErr (Option String)) ≠ .ok (some "NULL") ∧
    toObjectP (descToProcessor (.integer none) "NULL") (some "NULL") = .error .readException ∧
    toObjectP (descToProcessor (.floatD none ".") "NULL") (some "NULL") =
      .error .readException ∧
    toObjectP (descToProcessor (.decimalD none ".") "NULL") (some "NULL") =
      .error .invalidOperation ∧
    toStringP (.dateP "%Y-%m-%d" none "NULL") none = .error .attributeError ∧
    toObjectP (.textP "NULL") (some "NULL") = .ok none ∧
    toStringP (.textP "NULL") none = .ok (some "NULL") ∧
    toObjectP (mkBooleanProcessor "true" "false" "NULL") (some "NULL") = .ok none := by decide

/-- C3.  The claim states that `to_object` fails only with
`ReadException` and that `to_string` is total, in particular on
integers of four or more digits with no thousands separator.  On the
code this fails twice: `Decimal("foo")` raises
`decimal.InvalidOperation`, which the `except ValueError` clause does
not catch, so the Decimal processor's failure is *not* a
`ReadException` (its own test `test_to_object_err` expects one); and
`format_integer(1234, None)` evaluates `s += None + text[i:i+3]`, a
`TypeError`, so `IntegerFieldProcessor(None).to_string(1234)` crashes.
This theorem evaluates the code at both failing inputs. -/
theorem exception_contract_fails :
    toObjectP (.decimalP (some " ") "," "NULL") (some "foo") = .error .invalidOperation ∧
    PyErr.invalidOperation ≠ .readException ∧
    toStringP (.integerP none "NULL") (some (.int 1234)) = .error .typeError ∧
    formatInteger 1234 none = .error .typeError ∧
    toStringP (.integerP none "NULL") (some (.int 123)) = .ok (some "123") ∧
    toObjectP (.floatP (some " ") "," "NULL") (some "foo") = .error .readException := by decide

/-- C4.  The claim states that both Currency and Percentage
`to_field_processor` first build the inner *processor* and wrap that.
Currency does; Percentage passes the raw inner *description* to
`PercentageFieldProcessor` (whose parameter is annotated
`FieldProcessor`), so the composite's `to_object` hits an
`AttributeError` the moment it delegates.  This theorem evaluates the
code: the currency wiring builds and wraps a processor, the percentage
wiring stores the description itself, and its `to_object` on a
well-formed cell raises `AttributeError`. -/
theorem percentage_wraps_description :
    descToProcessor (.currencyDecimal true "$" (.decimalD none ".")) "NULL" =
      .currency true "$" (.proc (.decimalP none "." "NULL")) "NULL" ∧
    descToProcessor (.currencyInteger false "€" (.integer none)) "NULL" =
      .currency false "€" (.proc (.integerP none "NULL")) "NULL" ∧
    descToProcessor (.percentageFloat false "%" (.floatD (some "") ".")) "NULL" =
      .percentage false "%" (.desc (.floatD (some "") ".")) "NULL" ∧
    descToProcessor (.percentageDecimal true "%" (.decimalD (some "") ".")) "NULL" =
      .percentage true "%" (.desc (.decimalD (some "") ".")) "NULL" ∧
    toObjectP (descToProcessor (.percentageFloat false "%" (.floatD (some "") ".")) "NULL")
      (some "12.5%") = .error .attributeError := by decide

/-- C8.  The claim states that unmapped date fields (era `G`,
week-in-month `W`, day-of-week-in-month `F`, hour-in-day 1–24 `k`,
hour-in-am/pm 0–11 `K`) fall back to their raw field text.  On the code
only `W` and `F` do: the table-expansion loop inserts the `None` base
values for `G`, `k` and `K` (it lacks the `v is not None` guard used
for non-expanded keys), and `ret += None` in `parse` then raises
`TypeError`.  Literal `%`-doubling and mapped-field substitution behave
as claimed.  This theorem evaluates the code at the failing and the
conforming inputs. -/
theorem uldml_unmapped_fields_crash :
    convertDateFormat "W" = .ok "W" ∧
    convertDateFormat "F" = .ok "F" ∧
    convertDateFormat "G" = .error .typeError ∧
    convertDateFormat "k" = .error .typeError ∧
    convertDateFormat "K" = .error .typeError ∧
    convertDateFormat "kk" = .error .typeError ∧
    convertDateFormat "yyyy-MM-dd" = .ok "%Y-%m-%d" ∧
    convertDateFormat "'a%b'" = .ok "a%%b" := by decide

/-- C9.  For a column typed `integer` with sentinel `"NULL"` and the
malformed cell `"foo"`, the reader's row mapping yields
`ReadError("foo", "integer")` under `wrap`, a null under `null`, the
raw text under `text`, and propagates the raised `MetaCSVReadException`
under `exception` — exactly as claimed. -/
theorem error_policy_end_to_end :
    mapRow .wrap [.integer none] "NULL" ["foo"] = .ok [.readError "foo" "integer"] ∧
    mapRow .null [.integer none] "NULL" ["foo"] = .ok [.obj none] ∧
    mapRow .text [.integer none] "NULL" ["foo"] = .ok [.obj (some (.str "foo"))] ∧
    mapRow .exception [.integer none] "NULL" ["foo"] = .error .readException := by decide

/-- C10, counterexample.  The claim states that a currency-over-integer
description reports `CURRENCY_INTEGER`; the code's
`CurrencyIntegerFieldDescription.get_data_type` returns
`DataType.INTEGER`. -/
theorem currency_integer_datatype_counterexample :
    getDataType (.currencyInteger true "$" (.integer none)) = .INTEGER ∧
    DataType.INTEGER ≠ DataType.CURRENCY_INTEGER := by decide

/-! ### Splitter and renderer lemmas (C6, C7) -/

/-- `keptTokens` always keeps at least the first token. -/
theorem keptTokens_ne_nil (l : List (List Char)) : keptTokens l ≠ [] := by
  unfold keptTokens
  by_cases hk : (l.reverse.dropWhile List.isEmpty).reverse = []
  · simp [hk]
  · simp [hk]

/-- The splitter always returns at least one token. -/
theorem splitGo_ne_nil (l : List Char) : ∀ bs cur, splitGo bs cur l ≠ [] := by
  induction l with
  | nil => intro bs cur; simp [splitGo]
  | cons c cs ih =>
    intro bs cur
    simp only [splitGo]
    split_ifs <;> first | exact ih _ _ | simp

/-- Running the splitter over a run of plain characters just extends the
current token. -/
theorem splitGo_plain (s : List Char) (h : noSpecials s = true) :
    ∀ cur rest, splitGo false cur (s ++ rest) = splitGo false (cur ++ s) rest := by
  induction s with
  | nil => intro cur rest; simp
  | cons c cs ih =>
    intro cur rest
    simp only [noSpecials, List.all_cons, Bool.and_eq_true, Bool.not_eq_true',
      Bool.or_eq_false_iff, decide_eq_false_iff_not] at h
    have hs : ¬ c = '\\' := h.1.2
    have hd : ¬ c = '/' := h.1.1
    rw [List.cons_append]
    simp only [splitGo, if_neg hs, if_neg hd, Bool.false_eq_true, if_false]
    rw [ih (by simpa [noSpecials] using h.2), List.append_assoc]
    rfl

theorem splitGo_plain_last (s : List Char) (h : noSpecials s = true) (cur : List Char) :
    splitGo false cur s = [cur ++ s] := by
  have := splitGo_plain s h cur []
  simpa [splitGo] using this

theorem splitGo_escList (t : List Char) (h : okEsc t = true) :
    ∀ cur rest, splitGo false cur (escList t ++ rest) = splitGo false (cur ++ t) rest := by
  induction t using okEsc.induct with
  | case1 =>
    intro cur rest
    simp [escList]
  | case2 =>
    simp [okEsc] at h
  | case3 c cs ih =>
    simp only [okEsc, Bool.and_eq_true, Bool.not_eq_true', Bool.or_eq_false_iff,
      decide_eq_false_iff_not] at h
    intro cur rest
    have hesc : escList ('\\' :: c :: cs) = '\\' :: '\\' :: c :: escList cs := by
      simp [escList, h.1.1, h.1.2]
    rw [hesc]
    rw [List.cons_append, List.cons_append, List.cons_append]
    simp only [splitGo, if_pos rfl, if_neg h.1.2, if_neg h.1.1, if_true]
    rw [ih h.2, List.append_assoc]
    rfl
  | case4 c cs hne1 hne2 ih =>
    intro cur rest
    have hcb : ¬ c = '\\' := by
      intro hc'
      subst hc'
      cases cs with
      | nil => exact hne1 rfl rfl
      | cons d ds => exact hne2 d ds rfl rfl
    have hok : okEsc cs = true := by
      revert h
      simp [okEsc, hcb]
    by_cases hc : c = '/'
    · subst hc
      have hesc : escList ('/' :: cs) = '\\' :: '/' :: escList cs := by simp [escList]
      rw [hesc, List.cons_append, List.cons_append]
      simp only [splitGo, if_pos rfl, if_neg (by decide : ¬ ('/' : Char) = '\\'), if_true]
      rw [ih hok, List.append_assoc]
      rfl
    · have hesc : escList (c :: cs) = c :: escList cs := by simp [escList, hc, hcb]
      rw [hesc, List.cons_append]
      simp only [splitGo, if_neg hcb, if_neg hc, Bool.false_eq_true, if_false]
      rw [ih hok, List.append_assoc]
      rfl

/-- Splitting the joined form of a nonempty token list recovers the
tokens, provided every non-last token is `okEsc` and the last token has
no special characters. -/
theorem splitGo_renderKept (ts : List (List Char)) :
    ∀ t, (∀ u ∈ (t :: ts).dropLast, okEsc u = true) →
      noSpecials ((t :: ts).getLast (by simp)) = true →
      ∀ cur, splitGo false cur (renderKept (t :: ts)) = (cur ++ t) :: ts := by
  induction ts with
  | nil =>
    intro t _ h2 cur
    simp only [List.getLast_singleton] at h2
    simpa [renderKept] using splitGo_plain_last t h2 cur
  | cons t2 ts2 ih =>
    intro t h1 h2 cur
    have hok : okEsc t = true := h1 t (by simp)
    have hrk : renderKept (t :: t2 :: ts2) = escList t ++ '/' :: renderKept (t2 :: ts2) := rfl
    rw [hrk, splitGo_escList t hok]
    simp only [splitGo, if_neg (by decide : ¬ ('/' : Char) = '\\'), if_pos rfl,
      Bool.false_eq_true, if_false]
    rw [ih t2 (fun u hu => h1 u (by simpa using Or.inr hu)) (by simpa using h2)]
    simp

/-- C6, counterexample.  The claim states that rendering escapes `/`
and `\` inside every token, the last written token included, so that
splitting recovers the originals.  The last token is in fact written
verbatim: `["a/b"]` renders to `a/b` (not `a\/b`), and splitting that
yields `["a","b"]`, not `["a/b"]`. -/
theorem render_last_token_unescaped :
    renderTokens ["a/b"] = "a/b" ∧
    split_parameters (renderTokens ["a/b"]) = ["a", "b"] ∧
    (["a", "b"] : List String) ≠ ["a/b"] ∧
    renderTokens ["a/b", "c"] = "a\\/b/c" := by decide

/-- C6, amended.  `util.render` escapes `/` and `\` in every written
token *except the last*, which is written verbatim, after trimming
trailing empty tokens (always keeping the first).  Splitting the
rendered string therefore recovers exactly the non-trimmed original
tokens provided every backslash in a non-last kept token is immediately
followed by a character other than `/` and `\`, and the last kept token
contains no `/` and no `\`. -/
theorem render_split_roundtrip_amended (values : List String) (h0 : values ≠ [])
    (h1 : ∀ u ∈ (keptTokens (values.map String.data)).dropLast, okEsc u = true)
    (h2 : noSpecials ((keptTokens (values.map String.data)).getLast?.getD []) = true) :
    split_parameters (renderTokens values) =
      (keptTokens (values.map String.data)).map String.mk := by
  obtain ⟨v, vs, rfl⟩ := List.exists_cons_of_ne_nil h0
  have hkept : keptTokens ((v :: vs).map String.data) ≠ [] :=
    keptTokens_ne_nil _
  obtain ⟨t, ts, hk⟩ := List.exists_cons_of_ne_nil hkept
  have hrender : renderTokens (v :: vs) = ⟨renderKept (keptTokens ((v :: vs).map String.data))⟩ :=
    rfl
  rw [hrender, hk]
  show (splitGo false [] (renderKept (t :: ts))).map String.mk = _
  rw [hk] at h1 h2
  rw [List.getLast?_eq_getLast _ (by simp)] at h2
  rw [splitGo_renderKept ts t h1 (by simpa using h2) []]
  simp

/-- C6, amended, witness. -/
theorem render_split_roundtrip_amended_witness :
    (["a/b", "c"] : List String) ≠ [] ∧
    split_parameters (renderTokens ["a/b", "c"]) =
      (keptTokens ((["a/b", "c"] : List String).map String.data)).map String.mk :=
  ⟨by decide, render_split_roundtrip_amended ["a/b", "c"] (by decide) (by decide) (by decide)⟩

/-- C7, counterexample.  The claim states that a doubled backslash
yields one literal backslash in the current token.  In the code,
consecutive backslashes merely re-set the pending-escape flag: at end
of input the pending escape is dropped (`\\` splits to `[""]`, not
`["\"]`), and before a `/` it escapes the slash (`\\/` splits to
`["/"]`, not `["\", ""]`). -/
theorem split_double_backslash_counterexample :
    split_parameters "\\\\" = [""] ∧
    ([""] : List String) ≠ ["\\"] ∧
    split_parameters "\\\\/" = ["/"] ∧
    (["/"] : List String) ≠ ["\\", ""] := by decide

/-- C7, amended.  `split_parameters` splits on `/` except where a
pending backslash escapes it; a backslash sets the pending-escape flag,
and a run of consecutive backslashes collapses into a single pending
escape: followed by `/` it yields a literal `/`, followed by any other
character `c` it yields one backslash then `c`, and at end of input it
is discarded.  The function never fails (the result always has at least
one token), the empty input yields exactly one empty token, and the
claim's concrete examples hold as stated. -/
theorem split_parameters_amended (s t : String) (h : noSpecials s.data = true) :
    split_parameters "date\\/yyyy" = ["date/yyyy"] ∧
    split_parameters "a//b" = ["a", "", "b"] ∧
    split_parameters "" = [""] ∧
    (∀ u : String, split_parameters u ≠ []) ∧
    split_parameters "\\\\a" = ["\\a"] ∧
    split_parameters "\\\\/" = ["/"] ∧
    split_parameters "a\\" = ["a"] ∧
    split_parameters (s ++ "/" ++ t) = s :: split_parameters t := by
  refine ⟨by decide, by decide, by decide, ?_, by decide, by decide, by decide, ?_⟩
  · intro u
    simp only [split_parameters, ne_eq, List.map_eq_nil_iff]
    exact splitGo_ne_nil u.data false []
  · show (splitGo false [] ((s ++ "/" ++ t)).data).map String.mk = _
    rw [String.data_append, String.data_append]
    have hslash : ("/" : String).data = ['/'] := rfl
    rw [hslash, List.append_assoc, List.singleton_append]
    rw [splitGo_plain s.data h [] ('/' :: t.data)]
    simp only [List.nil_append, splitGo, if_neg (by decide : ¬ ('/' : Char) = '\\'),
      if_pos rfl]
    rfl

/-- C7, amended, witness. -/
theorem split_parameters_amended_witness :
    noSpecials ("ab" : String).data = true ∧
    split_parameters ("ab" ++ "/" ++ "c//d") = "ab" :: split_parameters "c//d" :=
  ⟨by decide, (split_parameters_amended "ab" "c//d" (by decide)).2.2.2.2.2.2.2⟩

/-- C10, amended.  Every `FieldDescription` variant reports the
`DataType` member of its own kind, with one exception: the
currency-over-integer description reports `INTEGER` (not
`CURRENCY_INTEGER`). -/
theorem get_data_type_amended :
    (∀ tw fw, getDataType (.boolean tw fw) = .BOOLEAN) ∧
    (∀ p c i, getDataType (.currencyInteger p c i) = .INTEGER) ∧
    (∀ p c i, getDataType (.currencyDecimal p c i) = .CURRENCY_DECIMAL) ∧
    (∀ f l, getDataType (.date f l) = .DATE) ∧
    (∀ f l, getDataType (.datetime f l) = .DATETIME) ∧
    (∀ t d, getDataType (.decimalD t d) = .DECIMAL) ∧
    (∀ t d, getDataType (.floatD t d) = .FLOAT) ∧
    (∀ t, getDataType (.integer t) = .INTEGER) ∧
    (∀ p s i, getDataType (.percentageDecimal p s i) = .PERCENTAGE_DECIMAL) ∧
    (∀ p s i, getDataType (.percentageFloat p s i) = .PERCENTAGE_FLOAT) ∧
    getDataType .text = .TEXT :=
  ⟨fun _ _ => rfl, fun _ _ _ => rfl, fun _ _ _ => rfl, fun _ _ => rfl, fun _ _ => rfl,
    fun _ _ => rfl, fun _ _ => rfl, fun _ => rfl, fun _ _ _ => rfl, fun _ _ _ => rfl, rfl⟩

/-- C5.  For a percentage processor with suffix symbol `%` over a float
inner processor: `to_object("12.5%")` strips the symbol, delegates the
rest to the inner processor, and divides the result by
`to_object("100.0")`, giving `0.125`; `to_string` delegates the stored
value to the inner processor *without* multiplying by 100 first, so
rendering `v` gives `str(v) %` and re-parsing that gives `v / 100`
(shown at `v = 1/8`: render `"0.125 %"`, re-parse `1/800 = (1/8)/100`,
which differs from `v`). -/
theorem percentage_processor_contract :
    toObjectP (.percentage false "%" (.proc (.floatP (some "") "." "NULL")) "NULL")
      (some "12.5%") = .ok (some (.rat (1 / 8))) ∧
    (∀ v : ℚ, toStringP (.percentage false "%" (.proc (.floatP (some "") "." "NULL")) "NULL")
      (some (.rat v)) = .ok (some (pyFloatStr v ++ " " ++ "%"))) ∧
    toStringP (.percentage false "%" (.proc (.floatP (some "") "." "NULL")) "NULL")
      (some (.rat (1 / 8))) = .ok (some "0.125 %") ∧
    toObjectP (.percentage false "%" (.proc (.floatP (some "") "." "NULL")) "NULL")
      (some "0.125 %") = .ok (some (.rat (1 / 800))) ∧
    (1 : ℚ) / 800 = (1 / 8 : ℚ) / 100 ∧
    (1 : ℚ) / 800 ≠ 1 / 8 := by
  have d12 : digitsToNat ['1', '2'] = 12 := by decide
  have d5 : digitsToNat ['5'] = 5 := by decide
  have d100 : digitsToNat ['1', '0', '0'] = 100 := by decide
  have d0 : digitsToNat ['0'] = 0 := by decide
  have d125 : digitsToNat ['1', '2', '5'] = 125 := by decide
  have hs : pyFloatStr (1 / 8 : ℚ) = "0.125" := by
    have h1 : ((1 : ℚ) / 8).num = 1 := by norm_num
    have h2 : ((1 : ℚ) / 8).den = 8 := by norm_num
    simp only [pyFloatStr, h1, h2]
    decide
  refine ⟨?_, fun v => rfl, ?_, ?_, by norm_num, by norm_num⟩
  · rw [show toObjectP (.percentage false "%" (.proc (.floatP (some "") "." "NULL")) "NULL")
        (some "12.5%") =
        .ok (some (.rat (ratValOfParts (false, ['1', '2'], ['5']) /
          ratValOfParts (false, ['1', '0', '0'], ['0'])))) from rfl]
    simp only [Except.ok.injEq, Option.some.injEq, Value.rat.injEq, ratValOfParts, d12, d5,
      d100, d0, List.length_cons, List.length_nil, if_neg (by decide : ¬ false = true)]
    norm_num
  · rw [show toStringP (.percentage false "%" (.proc (.floatP (some "") "." "NULL")) "NULL")
        (some (.rat (1 / 8))) = .ok (some (pyFloatStr (1 / 8) ++ " " ++ "%")) from rfl, hs]
    decide
  · rw [show toObjectP (.percentage false "%" (.proc (.floatP (some "") "." "NULL")) "NULL")
        (some "0.125 %") =
        .ok (some (.rat (ratValOfParts (false, ['0'], ['1', '2', '5']) /
          ratValOfParts (false, ['1', '0', '0'], ['0'])))) from rfl]
    simp only [Except.ok.injEq, Option.some.injEq, Value.rat.injEq, ratValOfParts, d125, d0,
      d100, List.length_cons, List.length_nil, if_neg (by decide : ¬ false = true)]
    norm_num

end MCSV
